import Mathlib

/-!
Shallow embedding of the IFJ17 toolkit interpreter instruction layer
(src/ifj2017/interpreter/instruction.py) together with the parts of the
runtime it depends on.  The modules `state.py`, `operand.py` and
`prices.py` are not part of the provided sources; where their behaviour
is needed it is modelled from the specification and marked as such in
the doc comment of the corresponding definition.  Dynamic (host) Python
semantics of the operators used by the dispatch table — `operator.add`,
`operator.truediv`, string indexing, `codecs.decode(..., regular
unicode_escape)` and so on — are embedded as total/`Except` functions on
the dynamic value type.  Faults are explicit via `Except Fault`.
-/

set_option maxRecDepth 4000

namespace IFJ

/-- Runtime fault kinds, mirroring the host exceptions the interpreter
can raise (TypeError, IndexError, ZeroDivisionError, ...) together with
the interpreter-level faults named by the specification. -/
inductive Fault where
  | underflow
  | undeclaredVariable
  | missingFrame
  | typeError
  | indexError
  | zeroDivisionError
  | valueError
  | labelError
deriving DecidableEq

instance {ε α : Type} [DecidableEq ε] [DecidableEq α] : DecidableEq (Except ε α) :=
  fun x y =>
    match x, y with
    | .ok a, .ok b =>
      if h : a = b then .isTrue (by rw [h]) else .isFalse (fun he => h (Except.ok.inj he))
    | .error a, .error b =>
      if h : a = b then .isTrue (by rw [h]) else .isFalse (fun he => h (Except.error.inj he))
    | .ok _, .error _ => .isFalse (fun he => Except.noConfusion he)
    | .error _, .ok _ => .isFalse (fun he => Except.noConfusion he)

/-- Dynamically typed runtime value: one of Integer, Float, String,
Boolean, Nil.  Host floats are modelled as rational numbers; strings as
lists of characters. -/
inductive Value where
  | int (n : Int)
  | float (q : Rat)
  | string (s : List Char)
  | bool (b : Bool)
  | nil
deriving DecidableEq

namespace Value

/-- Host numeric view: Python treats booleans as the integers 0 and 1
in arithmetic contexts; integers and floats are numbers; strings and
None are not. -/
def asNum : Value → Option Rat
  | .int n => some (n : Rat)
  | .float q => some q
  | .bool b => some (if b then 1 else 0)
  | _ => none

/-- Whether the value is a String. -/
def isString : Value → Bool
  | .string _ => true
  | _ => false

/-- Host truthiness: zero, the empty string, False and None are falsy. -/
def truthy : Value → Bool
  | .int n => n ≠ 0
  | .float q => q ≠ 0
  | .string s => s ≠ []
  | .bool b => b
  | .nil => false

end Value

/-- Host `operator.add`: numeric addition (int result when both sides
are integral, float when a float is involved), string concatenation;
anything else is a TypeError. -/
def pyAdd : Value → Value → Except Fault Value
  | .int a, .int b => .ok (.int (a + b))
  | .int a, .bool b => .ok (.int (a + (if b then 1 else 0)))
  | .bool a, .int b => .ok (.int ((if a then 1 else 0) + b))
  | .bool a, .bool b => .ok (.int ((if a then 1 else 0) + (if b then 1 else 0)))
  | .string a, .string b => .ok (.string (a ++ b))
  | v, w =>
    match v.asNum, w.asNum with
    | some a, some b => .ok (.float (a + b))
    | _, _ => .error .typeError

/-- Host `operator.sub`: numeric subtraction, TypeError otherwise. -/
def pySub : Value → Value → Except Fault Value
  | .int a, .int b => .ok (.int (a - b))
  | .int a, .bool b => .ok (.int (a - (if b then 1 else 0)))
  | .bool a, .int b => .ok (.int ((if a then 1 else 0) - b))
  | .bool a, .bool b => .ok (.int ((if a then 1 else 0) - (if b then 1 else 0)))
  | v, w =>
    match v.asNum, w.asNum with
    | some a, some b => .ok (.float (a - b))
    | _, _ => .error .typeError

/-- Host `operator.mul`: numeric multiplication, string replication by
an integral count, TypeError otherwise. -/
def pyMul : Value → Value → Except Fault Value
  | .int a, .int b => .ok (.int (a * b))
  | .int a, .bool b => .ok (.int (a * (if b then 1 else 0)))
  | .bool a, .int b => .ok (.int ((if a then 1 else 0) * b))
  | .bool a, .bool b => .ok (.int ((if a then 1 else 0) * (if b then 1 else 0)))
  | .string a, .int n => .ok (.string (List.flatten (List.replicate n.toNat a)))
  | .int n, .string a => .ok (.string (List.flatten (List.replicate n.toNat a)))
  | v, w =>
    match v.asNum, w.asNum with
    | some a, some b => .ok (.float (a * b))
    | _, _ => .error .typeError

/-- Host `operator.truediv`: true (non-truncating) division on numbers,
always producing a float; division by a zero divisor raises
ZeroDivisionError; non-numeric operands raise TypeError. -/
def pyTruediv : Value → Value → Except Fault Value :=
  fun v w =>
    match v.asNum, w.asNum with
    | some a, some b => if b = 0 then .error .zeroDivisionError else .ok (.float (a / b))
    | _, _ => .error .typeError

/-- Lexicographic strict ordering on character lists, as the host
compares strings. -/
def lexLt : List Char → List Char → Bool
  | [], [] => false
  | [], _ :: _ => true
  | _ :: _, [] => false
  | a :: as, b :: bs => if a < b then true else if b < a then false else lexLt as bs

/-- Host `operator.lt`: numeric comparison across int/float/bool,
lexicographic on strings, TypeError on mixed or unordered kinds. -/
def pyLt (v w : Value) : Except Fault Value :=
  match v.asNum, w.asNum with
  | some a, some b => .ok (.bool (a < b))
  | _, _ =>
    match v, w with
    | .string a, .string b => .ok (.bool (lexLt a b))
    | _, _ => .error .typeError

/-- Host `operator.gt`. -/
def pyGt (v w : Value) : Except Fault Value :=
  match v.asNum, w.asNum with
  | some a, some b => .ok (.bool (b < a))
  | _, _ =>
    match v, w with
    | .string a, .string b => .ok (.bool (lexLt b a))
    | _, _ => .error .typeError

/-- Host `operator.eq`: never faults; numbers compare numerically
across int/float/bool, otherwise values of different kinds are unequal. -/
def pyEqHost (v w : Value) : Except Fault Value :=
  match v.asNum, w.asNum with
  | some a, some b => .ok (.bool (a = b))
  | _, _ =>
    match v, w with
    | .string a, .string b => .ok (.bool (a = b))
    | .nil, .nil => .ok (.bool true)
    | _, _ => .ok (.bool false)

/-- Host `operator.and_` (bitwise conjunction): Boolean on two
booleans, bitwise on integral operands, TypeError otherwise. -/
def pyAnd : Value → Value → Except Fault Value
  | .bool a, .bool b => .ok (.bool (a && b))
  | .int a, .int b => .ok (.int (Int.land a b))
  | .int a, .bool b => .ok (.int (Int.land a (if b then 1 else 0)))
  | .bool a, .int b => .ok (.int (Int.land (if a then 1 else 0) b))
  | _, _ => .error .typeError

/-- Host `operator.or_` (bitwise disjunction). -/
def pyOr : Value → Value → Except Fault Value
  | .bool a, .bool b => .ok (.bool (a || b))
  | .int a, .int b => .ok (.int (Int.lor a b))
  | .int a, .bool b => .ok (.int (Int.lor a (if b then 1 else 0)))
  | .bool a, .int b => .ok (.int (Int.lor (if a then 1 else 0) b))
  | _, _ => .error .typeError

/-- Host `float(...)` coercion on runtime values.  Numeric string
parsing done by the host is outside the scope of the embedded claims
and is modelled as a fault. -/
def pyFloat : Value → Except Fault Rat
  | .int n => .ok (n : Rat)
  | .float q => .ok q
  | .bool b => .ok (if b then 1 else 0)
  | _ => .error .typeError

/-- Truncation toward zero, as host `int(...)` truncates floats. -/
def ratTrunc (q : Rat) : Int :=
  if 0 ≤ q then ⌊q⌋ else ⌈q⌉

/-- Host `int(...)` coercion on runtime values.  Numeric string parsing
is modelled as a fault, as for `pyFloat`. -/
def pyInt : Value → Except Fault Int
  | .int n => .ok n
  | .float q => .ok (ratTrunc q)
  | .bool b => .ok (if b then 1 else 0)
  | _ => .error .typeError

/-- Host string indexing `s[i]`: zero-based for `0 ≤ i < len s`,
negative indices address from the end for `-len s ≤ i < 0`, anything
else raises IndexError (modelled by `none`). -/
def pyStrIndex (s : List Char) (i : Int) : Option Char :=
  if 0 ≤ i ∧ i < (s.length : Int) then s.get? i.toNat
  else if -(s.length : Int) ≤ i ∧ i < 0 then s.get? (s.length + i).toNat
  else none

/-- Host `round(...)` with the round-half-to-even tie rule. -/
def pyRound (q : Rat) : Int :=
  let f : Int := ⌊q⌋
  let r : Rat := q - (f : Rat)
  if r < 1/2 then f
  else if (1/2 : Rat) < r then f + 1
  else if Even f then f else f + 1

/-- The arithmetic core of the FLOAT2R2EINT / FLOAT2R2EINTS dispatch
entries: `math.ceil(v / 2.) * 2`. -/
def float2r2eCore (q : Rat) : Int :=
  ⌈q / 2⌉ * 2

/-- The element-wise core of the CONCAT dispatch entry, host
`join` of a pair: both elements must be strings
(TypeError otherwise), and the result is their concatenation. -/
def pyJoinPair : Value → Value → Except Fault Value
  | .string a, .string b => .ok (.string (a ++ b))
  | _, _ => .error .typeError

/-- Frame qualifier of a variable operand: Global, Local, Temporary. -/
inductive FrameKind where
  | GF
  | LF
  | TF
deriving DecidableEq

/-- Modelled from the spec: `operand.py` is absent from the sources.
An operand is either a typed constant literal, a variable reference
(frame qualifier plus bare name), or a label name; it is immutable once
constructed. -/
inductive Operand where
  | const (v : Value)
  | var (frame : FrameKind) (name : String)
  | label (name : String)
deriving DecidableEq

/-- A frame: a mapping from variable name to Value, modelled as an
association list; created empty, entries added by declaration or
assignment. -/
def Frame := List (String × Value)
deriving DecidableEq

/-- Lookup of a variable in a frame. -/
def Frame.lookupVar : Frame → String → Option Value
  | [], _ => none
  | (k, v) :: rest, n => if k = n then some v else Frame.lookupVar rest n

/-- Insert-or-overwrite of a variable binding in a frame. -/
def Frame.setVar : Frame → String → Value → Frame
  | [], n, v => [(n, v)]
  | (k, w) :: rest, n, v => if k = n then (n, v) :: rest else (k, w) :: Frame.setVar rest n v

/-- Modelled from the spec: `state.py` is absent from the sources.  The
Execution State owns the global frame, the local-frame stack (head is
the top), the temporary frame, the value stack (head is the top), the
call stack of return addresses, the label table, the instruction
pointer, the output sinks, the input source, and the two bookkeeping
counters incremented by `Instruction.run`. -/
structure State where
  global_frame : Frame := []
  frame_stack : List Frame := []
  temp_frame : Frame := []
  data_stack : List Value := []
  call_stack : List Nat := []
  labels : List (String × Nat) := []
  program_counter : Nat := 0
  stdout : List (List Char) := []
  stderr : List (List Char) := []
  stdin : List Value := []
  instruction_price : Int := 0
  executed_instructions : Nat := 0
deriving DecidableEq

namespace State

/-- Modelled from the spec: operand resolution (`State.get_value`).
Constants resolve to themselves; variables resolve via lookup in the
frame named by their qualifier (an undeclared name is a fault, and
addressing the local frame with an empty local-frame stack is a
fault); a label is never a readable value. -/
def get_value (st : State) : Operand → Except Fault Value
  | .const v => .ok v
  | .label _ => .error .typeError
  | .var .GF n =>
    match st.global_frame.lookupVar n with
    | some v => .ok v
    | none => .error .undeclaredVariable
  | .var .TF n =>
    match st.temp_frame.lookupVar n with
    | some v => .ok v
    | none => .error .undeclaredVariable
  | .var .LF n =>
    match st.frame_stack with
    | [] => .error .missingFrame
    | f :: _ =>
      match f.lookupVar n with
      | some v => .ok v
      | none => .error .undeclaredVariable

/-- Modelled from the spec: `State.set_value`.  Writing to a constant
or label operand is a fault; writing to a variable inserts or
overwrites the binding in the addressed frame (DEFVAR itself declares
through this path, so writing creates the entry when absent). -/
def set_value (st : State) (op : Operand) (v : Value) : Except Fault State :=
  match op with
  | .const _ => .error .typeError
  | .label _ => .error .typeError
  | .var .GF n => .ok { st with global_frame := st.global_frame.setVar n v }
  | .var .TF n => .ok { st with temp_frame := st.temp_frame.setVar n v }
  | .var .LF n =>
    match st.frame_stack with
    | [] => .error .missingFrame
    | f :: rest => .ok { st with frame_stack := f.setVar n v :: rest }

/-- Modelled from the spec: popping the value stack; popping an empty
stack is a fault. -/
def pop_stack (st : State) : Except Fault (Value × State) :=
  match st.data_stack with
  | [] => .error .underflow
  | v :: rest => .ok (v, { st with data_stack := rest })

/-- Modelled from the spec: pushing a value onto the value stack. -/
def push_stack (st : State) (v : Value) : State :=
  { st with data_stack := v :: st.data_stack }

/-- Modelled from the spec: `State.jump` sets the instruction pointer
to the label table entry named by a label operand; an undefined label
or a non-label operand is a fault. -/
def jump (st : State) : Operand → Except Fault State
  | .label n =>
    match st.labels.lookup n with
    | some ip => .ok { st with program_counter := ip }
    | none => .error .labelError
  | _ => .error .labelError

/-- Modelled from the spec: type-aware equality used by `jump_if` in
`state.py`.  Values of the same kind compare structurally; Nil
compares equal only to Nil (the documented design choice); comparison
across other kinds is a type fault (section 4.3: no implicit
coercion). -/
def valueEq : Value → Value → Except Fault Bool
  | .nil, .nil => .ok true
  | .nil, _ => .ok false
  | _, .nil => .ok false
  | .int a, .int b => .ok (a = b)
  | .float a, .float b => .ok (a = b)
  | .string a, .string b => .ok (a = b)
  | .bool a, .bool b => .ok (a = b)
  | _, _ => .error .typeError

/-- Modelled from the spec: `State.jump_if` compares two already
resolved values for equality and redirects the instruction pointer to
the label when the comparison agrees with `positive`; otherwise the
state is left unchanged and the interpreter loop advances. -/
def jump_if (st : State) (lbl : Operand) (v1 v2 : Value) (positive : Bool) :
    Except Fault State := do
  let e ← valueEq v1 v2
  if e = positive then st.jump lbl else .ok st

/-- Modelled from the spec: `State.move` resolves the source operand
and writes its value to the destination operand. -/
def move (st : State) (op0 op1 : Operand) : Except Fault State := do
  let v ← st.get_value op1
  st.set_value op0 v

/-- Modelled from the spec: `State.pop_frame` removes the top local
frame and makes it the temporary frame; popping an empty local-frame
stack is a fault. -/
def pop_frame (st : State) : Except Fault State :=
  match st.frame_stack with
  | [] => .error .underflow
  | f :: rest => .ok { st with temp_frame := f, frame_stack := rest }

/-- Modelled from the spec: `State.call` pushes the successor of the
instruction pointer onto the call stack and jumps to the label. -/
def call (st : State) (op : Operand) : Except Fault State :=
  State.jump { st with call_stack := (st.program_counter + 1) :: st.call_stack } op

/-- Modelled from the spec: `State.return_` pops the call stack and
jumps there; popping an empty call stack is a fault. -/
def return_ (st : State) : Except Fault State :=
  match st.call_stack with
  | [] => .error .underflow
  | ip :: rest => .ok { st with program_counter := ip, call_stack := rest }

end State

/-- A dispatch-table entry: a semantics function applied to the
execution state and the list of operand slots the instruction record
supplies (`command(state, *self.operands)`); a call with the wrong
number of operands is rejected by the host with a type fault. -/
def Command : Type :=
  State → List Operand → Except Fault State

/-- `_unknown_command` from instruction.py: logs the fault (to the
diagnostic stream, where the default logging configuration sends it)
and leaves the state untouched. -/
def _unknown_command : Command := fun st _ =>
  .ok { st with stderr := st.stderr ++ ["Unknown command.".toList] }

/-- `_operator_command` from instruction.py: resolve the two source
operands, apply the operator, store the result into the destination
operand. -/
def _operator_command (f : Value → Value → Except Fault Value) : Command := fun st ops =>
  match ops with
  | [op0, op1, op2] => do
    let v1 ← st.get_value op1
    let v2 ← st.get_value op2
    let v ← f v1 v2
    st.set_value op0 v
  | _ => .error .typeError

/-- `_operator_stack_command` from instruction.py: pop `op2` first,
pop `op1` second, push `op1 OP op2`. -/
def _operator_stack_command (f : Value → Value → Except Fault Value) : Command := fun st ops =>
  match ops with
  | [] => do
    let (op2, st1) ← st.pop_stack
    let (op1, st2) ← st1.pop_stack
    let v ← f op1 op2
    .ok (st2.push_stack v)
  | _ => .error .typeError

/-- CREATEFRAME: reset the temporary frame to empty. -/
def createframeCmd : Command := fun st ops =>
  match ops with
  | [] => .ok { st with temp_frame := [] }
  | _ => .error .typeError

/-- PUSHFRAME: push a copy of the temporary frame onto the local-frame
stack (head of the list is the top). -/
def pushframeCmd : Command := fun st ops =>
  match ops with
  | [] => .ok { st with frame_stack := st.temp_frame :: st.frame_stack }
  | _ => .error .typeError

/-- POPFRAME via `State.pop_frame`. -/
def popframeCmd : Command := fun st ops =>
  match ops with
  | [] => st.pop_frame
  | _ => .error .typeError

/-- DEFVAR: `state.set_value(op, None)`. -/
def defvarCmd : Command := fun st ops =>
  match ops with
  | [op] => st.set_value op .nil
  | _ => .error .typeError

/-- MOVE via `State.move`. -/
def moveCmd : Command := fun st ops =>
  match ops with
  | [op0, op1] => st.move op0 op1
  | _ => .error .typeError

/-- JUMP via `State.jump`. -/
def jumpCmd : Command := fun st ops =>
  match ops with
  | [op] => st.jump op
  | _ => .error .typeError

/-- CALL via `State.call`. -/
def callCmd : Command := fun st ops =>
  match ops with
  | [op] => st.call op
  | _ => .error .typeError

/-- RETURN via `State.return_`. -/
def returnCmd : Command := fun st ops =>
  match ops with
  | [] => st.return_
  | _ => .error .typeError

/-- LABEL: a no-op at execution time. -/
def labelCmd : Command := fun st ops =>
  match ops with
  | [_] => .ok st
  | _ => .error .typeError

/-- JUMPIFEQ: resolve both operands, then `jump_if` positively. -/
def jumpifeqCmd : Command := fun st ops =>
  match ops with
  | [op0, op1, op2] => do
    let v1 ← st.get_value op1
    let v2 ← st.get_value op2
    st.jump_if op0 v1 v2 true
  | _ => .error .typeError

/-- JUMPIFNEQ: resolve both operands, then `jump_if` negatively. -/
def jumpifneqCmd : Command := fun st ops =>
  match ops with
  | [op0, op1, op2] => do
    let v1 ← st.get_value op1
    let v2 ← st.get_value op2
    st.jump_if op0 v1 v2 false
  | _ => .error .typeError

/-- JUMPIFEQS: the host evaluates the two pops left to right before
entering `jump_if`, so the first-popped value is passed in the first
value slot and the second-popped value in the second. -/
def jumpifeqsCmd : Command := fun st ops =>
  match ops with
  | [op0] => do
    let (a, st1) ← st.pop_stack
    let (b, st2) ← st1.pop_stack
    st2.jump_if op0 a b true
  | _ => .error .typeError

/-- JUMPIFNEQS, same pop protocol as JUMPIFEQS. -/
def jumpifneqsCmd : Command := fun st ops =>
  match ops with
  | [op0] => do
    let (a, st1) ← st.pop_stack
    let (b, st2) ← st1.pop_stack
    st2.jump_if op0 a b false
  | _ => .error .typeError

/-- Decimal digits of a natural number. -/
def natDigits (n : Nat) : List Char :=
  (toString n).toList

/-- Multiplicity of p in n, by fuel-bounded repeated division. -/
def factorCountAux (p : Nat) : Nat → Nat → Nat
  | 0, _ => 0
  | fuel + 1, n => if 2 ≤ p ∧ n ≠ 0 ∧ n % p = 0 then factorCountAux p fuel (n / p) + 1 else 0

/-- Multiplicity of p in n. -/
def factorCount (p n : Nat) : Nat :=
  factorCountAux p n n

/-- Remove trailing zero digits. -/
def dropTrailingZeros (l : List Char) : List Char :=
  (l.reverse.dropWhile (fun c => c = '0')).reverse

/-- Host `str(...)` of a float: positional decimal when the exponent
of the leading digit lies in [-4, 16) — with `.0` appended to an
integral value — and scientific notation `d.ddde+XX` (mantissa
stripped of trailing zeros, sign and at least two exponent digits)
otherwise.  On the exact-rational model of floats this prints the
exact decimal expansion: every host binary64 value is a dyadic
rational, whose expansion terminates, and a decimal source literal is
carried exactly, so on the image of host floats the digits agree with
the host shortest round-trip repr.  A denominator with a prime factor
other than 2 and 5 never arises from a host float and prints as an
exact fraction. -/
def pyFloatRepr (q : Rat) : List Char :=
  if q = 0 then "0.0".toList
  else
    let sgn : List Char := if q < 0 then ['-'] else []
    let num := q.num.natAbs
    let den := q.den
    let a := factorCount 2 den
    let b := factorCount 5 den
    if 2 ^ a * 5 ^ b = den then
      let k := max a b
      let ds := natDigits (num * 10 ^ k / den)
      let e : Int := (ds.length : Int) - 1 - (k : Int)
      if -4 ≤ e ∧ e < 16 then
        sgn ++ (if k = 0 then ds ++ ['.', '0']
          else if k < ds.length then ds.take (ds.length - k) ++ '.' :: ds.drop (ds.length - k)
          else '0' :: '.' :: (List.replicate (k - ds.length) '0' ++ ds))
      else
        let mant := dropTrailingZeros ds
        let mstr : List Char :=
          match mant with
          | [] => ['0']
          | [d] => [d]
          | d :: restd => d :: '.' :: restd
        let eabs := e.natAbs
        let estr := if eabs < 10 then '0' :: natDigits eabs else natDigits eabs
        sgn ++ mstr ++ 'e' :: (if e < 0 then '-' else '+') :: estr
    else
      sgn ++ natDigits num ++ '/' :: natDigits den

/-- Textual representation `str(value)` of the host. -/
def pyStr : Value → List Char
  | .int n => (toString n).toList
  | .float q => pyFloatRepr q
  | .string s => s
  | .bool true => "True".toList
  | .bool false => "False".toList
  | .nil => "None".toList

/-- How the `codecs.decode(str, regular unicode-escape)` call can go
wrong: `malformed` stands for the host UnicodeDecodeError (truncated
hex escape, backslash at end of input, unknown character name, code
point beyond the Unicode range) and also for a decoded lone surrogate,
which the embedding cannot represent and which the host standard
output rejects with UnicodeEncodeError at the write; `nameEscape`
marks a well-formed named-character escape, whose decoding needs the
Unicode name database and lies outside the embedding — theorems
exclude it by hypothesis. -/
inductive DecodeErr where
  | malformed
  | nameEscape
deriving DecidableEq

/-- The UTF-8 bytes of one character, each byte as a character. -/
def utf8Bytes (c : Char) : List Char :=
  let n := c.toNat
  if n < 128 then [c]
  else if n < 2048 then
    [Char.ofNat (192 + n / 64), Char.ofNat (128 + n % 64)]
  else if n < 65536 then
    [Char.ofNat (224 + n / 4096), Char.ofNat (128 + n / 64 % 64), Char.ofNat (128 + n % 64)]
  else
    [Char.ofNat (240 + n / 262144), Char.ofNat (128 + n / 4096 % 64),
     Char.ofNat (128 + n / 64 % 64), Char.ofNat (128 + n % 64)]

/-- The implicit encode step the host performs when a str is decoded
with a bytes-to-str codec: the text is encoded to its UTF-8 bytes, and
the escape parser then reads each byte as a latin-1 character (so
non-ASCII text is mangled byte by byte, never faulting here). -/
def utf8Expand : List Char → List Char
  | [] => []
  | c :: rest => utf8Bytes c ++ utf8Expand rest

/-- Octal digit test. -/
def isOctalDigit (c : Char) : Bool :=
  '0' ≤ c ∧ c ≤ '7'

/-- Octal digit value. -/
def octVal (c : Char) : Nat :=
  c.toNat - 48

/-- Hexadecimal digit value. -/
def hexVal (c : Char) : Option Nat :=
  if '0' ≤ c ∧ c ≤ '9' then some (c.toNat - 48)
  else if 'a' ≤ c ∧ c ≤ 'f' then some (c.toNat - 87)
  else if 'A' ≤ c ∧ c ≤ 'F' then some (c.toNat - 55)
  else none

/-- A code point produced by a `u` or `U` escape, as a character:
beyond the Unicode range it is the host "illegal Unicode character"
error, and a lone surrogate is unrepresentable here and unwritable on
the host standard output (see `DecodeErr`). -/
def escCodePoint (n : Nat) : Except DecodeErr Char :=
  if n < 55296 then .ok (Char.ofNat n)
  else if n < 57344 then .error .malformed
  else if n < 1114112 then .ok (Char.ofNat n)
  else .error .malformed

/-- One escape of the host unicode-escape codec, read from the
characters following a backslash: the decoded chunk together with the
number of further characters consumed after the escape character.  A
backslash-newline pair is swallowed (line continuation, empty chunk),
single-character escapes decode, octal escapes take up to three
digits, `x`, `u` and `U` escapes take exactly 2, 4 and 8 hex digits
(truncation is the host UnicodeDecodeError), an unknown escape keeps
its backslash, and a named-character escape is flagged as outside the
embedding. -/
def uEsc (e : Char) (r : List Char) : Except DecodeErr (List Char × Nat) :=
    if e = '\n' then .ok ([], 0)
    else if e = 'n' then .ok (['\n'], 0)
    else if e = 't' then .ok (['\t'], 0)
    else if e = 'r' then .ok (['\r'], 0)
    else if e = '\\' then .ok (['\\'], 0)
    else if e = '\x27' then .ok (['\x27'], 0)
    else if e = '\x22' then .ok (['\x22'], 0)
    else if e = 'a' then .ok (['\x07'], 0)
    else if e = 'b' then .ok (['\x08'], 0)
    else if e = 'f' then .ok (['\x0C'], 0)
    else if e = 'v' then .ok (['\x0B'], 0)
    else if isOctalDigit e then
      match r with
      | d2 :: d3 :: _ =>
        if isOctalDigit d2 then
          if isOctalDigit d3 then
            .ok ([Char.ofNat (64 * octVal e + 8 * octVal d2 + octVal d3)], 2)
          else .ok ([Char.ofNat (8 * octVal e + octVal d2)], 1)
        else .ok ([Char.ofNat (octVal e)], 0)
      | [d2] =>
        if isOctalDigit d2 then .ok ([Char.ofNat (8 * octVal e + octVal d2)], 1)
        else .ok ([Char.ofNat (octVal e)], 0)
      | [] => .ok ([Char.ofNat (octVal e)], 0)
    else if e = 'x' then
      match r with
      | h1 :: h2 :: _ =>
        match hexVal h1, hexVal h2 with
        | some x1, some x2 => .ok ([Char.ofNat (16 * x1 + x2)], 2)
        | _, _ => .error .malformed
      | _ => .error .malformed
    else if e = 'u' then
      match r with
      | h1 :: h2 :: h3 :: h4 :: _ =>
        match hexVal h1, hexVal h2, hexVal h3, hexVal h4 with
        | some x1, some x2, some x3, some x4 =>
          match escCodePoint (4096 * x1 + 256 * x2 + 16 * x3 + x4) with
          | .ok ch => .ok ([ch], 4)
          | .error err => .error err
        | _, _, _, _ => .error .malformed
      | _ => .error .malformed
    else if e = 'U' then
      match r with
      | h1 :: h2 :: h3 :: h4 :: h5 :: h6 :: h7 :: h8 :: _ =>
        match hexVal h1, hexVal h2, hexVal h3, hexVal h4,
            hexVal h5, hexVal h6, hexVal h7, hexVal h8 with
        | some x1, some x2, some x3, some x4, some x5, some x6, some x7, some x8 =>
          match escCodePoint (268435456 * x1 + 16777216 * x2 + 1048576 * x3 +
              65536 * x4 + 4096 * x5 + 256 * x6 + 16 * x7 + x8) with
          | .ok ch => .ok ([ch], 8)
          | .error err => .error err
        | _, _, _, _, _, _, _, _ => .error .malformed
      | _ => .error .malformed
    else if e = 'N' then .error .nameEscape
    else .ok (['\\', e], 0)

/-- The escape-parsing loop over the byte characters, driven by a fuel
bound on the number of characters still to be read: an ordinary
character passes through, a backslash at the end of input is a host
error, and a backslash followed by more input hands the escape
character and the rest to `uEsc` and continues after the consumed
characters.  Every step consumes at least one character, so any fuel
of at least the input length gives the same result
(`uDecF_fuel_inv`); the zero-fuel arm is never reached from `uDec`. -/
def uDecF : Nat → List Char → Except DecodeErr (List Char)
  | _, [] => .ok []
  | 0, _ :: _ => .error .malformed
  | fuel + 1, c :: rest =>
    if c = '\\' then
      match rest with
      | [] => .error .malformed
      | e :: r =>
        match uEsc e r with
        | .ok (chunk, k) => (uDecF fuel (r.drop k)).map (fun t => chunk ++ t)
        | .error err => .error err
    else (uDecF fuel rest).map (fun t => c :: t)

/-- The escape parser of the host unicode-escape codec, over the byte
characters. -/
def uDec (l : List Char) : Except DecodeErr (List Char) :=
  uDecF l.length l

/-- The `codecs.decode(text, regular unicode-escape)` call of the
WRITE entry: the host encodes the text to UTF-8 bytes and runs the
escape parser over them. -/
def unicodeEscapeDecode (s : List Char) : Except DecodeErr (List Char) :=
  uDec (utf8Expand s)

/-- WRITE: resolve the operand, stringify, decode escape sequences,
emit to standard output.  The decode is applied to `str(value)` for
every value uniformly, whatever its type; a decode error
(UnicodeDecodeError, or the UnicodeEncodeError of writing what cannot
be encoded) is a ValueError-class fault.  The named-character escapes,
flagged `nameEscape` by the decoder, are beyond the embedding and are
mapped to the same fault here; every theorem about WRITE excludes them
by hypothesis. -/
def writeCmd : Command := fun st ops =>
  match ops with
  | [op] => do
    let v ← st.get_value op
    match unicodeEscapeDecode (pyStr v) with
    | .ok t => .ok { st with stdout := st.stdout ++ [t] }
    | .error _ => .error .valueError
  | _ => .error .typeError

/-- PUSHS maps to `State.push_stack` applied to the operand: the
operand is resolved and its value pushed (modelled from the spec for
the resolution step). -/
def pushsCmd : Command := fun st ops =>
  match ops with
  | [op] => do
    let v ← st.get_value op
    .ok (st.push_stack v)
  | _ => .error .typeError

/-- POPS maps to `State.pop_stack` applied to the operand: the popped
value is stored into the operand (modelled from the spec for the
optional-operand form of pop_stack). -/
def popsCmd : Command := fun st ops =>
  match ops with
  | [op] => do
    let (v, st1) ← st.pop_stack
    st1.set_value op v
  | _ => .error .typeError

/-- CLEARS: empty the value stack unconditionally. -/
def clearsCmd : Command := fun st ops =>
  match ops with
  | [] => .ok { st with data_stack := [] }
  | _ => .error .typeError

/-- NOT: store the host negation of the resolved operand truthiness. -/
def notCmd : Command := fun st ops =>
  match ops with
  | [op0, op1] => do
    let v ← st.get_value op1
    st.set_value op0 (.bool (!v.truthy))
  | _ => .error .typeError

/-- NOTS: pop, negate truthiness, push. -/
def notsCmd : Command := fun st ops =>
  match ops with
  | [] => do
    let (v, st1) ← st.pop_stack
    .ok (st1.push_stack (.bool (!v.truthy)))
  | _ => .error .typeError

/-- READ via `State.read` — modelled from the spec: stores the next
value supplied by the input source into the destination operand; the
second operand names the expected type and is owned by the
collaborator contract. -/
def readCmd : Command := fun st ops =>
  match ops with
  | [op0, _op1] =>
    match st.stdin with
    | [] => .error .valueError
    | v :: rest => State.set_value { st with stdin := rest } op0 v
  | _ => .error .typeError

/-- TYPE: the symbolic name of the runtime type of the resolved value
(via the reverse constant mapping of operand.py, modelled from the
spec), or the empty string for Nil. -/
def typeCmd : Command := fun st ops =>
  match ops with
  | [op0, op1] => do
    let v ← st.get_value op1
    match v with
    | .nil => st.set_value op0 (.string [])
    | .int _ => st.set_value op0 (.string "int".toList)
    | .float _ => st.set_value op0 (.string "float".toList)
    | .string _ => st.set_value op0 (.string "string".toList)
    | .bool _ => st.set_value op0 (.string "bool".toList)
  | _ => .error .typeError

/-- Diagnostic snapshot text of the state written by BREAK — modelled
from the spec: a human-readable dump whose exact text is not
load-bearing. -/
def stateRepr (_ : State) : List Char :=
  "<state>".toList

/-- BREAK: dump the state snapshot to the error stream. -/
def breakCmd : Command := fun st ops =>
  match ops with
  | [] => .ok { st with stderr := st.stderr ++ [stateRepr st ++ ['\n']] }
  | _ => .error .typeError

/-- DPRINT: dump one resolved value representation to the error
stream. -/
def dprintCmd : Command := fun st ops =>
  match ops with
  | [op0] => do
    let v ← st.get_value op0
    .ok { st with stderr := st.stderr ++ [pyStr v ++ ['\n']] }
  | _ => .error .typeError

/-- CONCAT: join of the two resolved source values, stored into the
target operand. -/
def concatCmd : Command := fun st ops =>
  match ops with
  | [target, op0, op1] => do
    let a ← st.get_value op0
    let b ← st.get_value op1
    let v ← pyJoinPair a b
    st.set_value target v
  | _ => .error .typeError

/-- Modelled from the spec: `operand.py` is absent; an Operand is a
constant or variable reference record, not a sized container, so the
host length protocol rejects it with a type fault. -/
def pyLenOperand (_ : Operand) : Except Fault Value :=
  .error .typeError

/-- STRLEN as written in instruction.py: the length function is
applied to the operand record itself (`len(string)`), not to
`state.get_value(string)`. -/
def strlenCmd : Command := fun st ops =>
  match ops with
  | [target, string_] => do
    let v ← pyLenOperand string_
    st.set_value target v
  | _ => .error .typeError

/-- Host view of a value as a subscript index: integers directly,
booleans as 0 and 1, anything else is a type fault. -/
def toIndex : Value → Except Fault Int
  | .int n => .ok n
  | .bool b => .ok (if b then 1 else 0)
  | _ => .error .typeError

/-- GETCHAR: `state.get_value(string)[state.get_value(index)]` stored
into the target as a one-character string. -/
def getcharCmd : Command := fun st ops =>
  match ops with
  | [target, string_, index] => do
    let sv ← st.get_value string_
    let iv ← st.get_value index
    match sv with
    | .string s => do
      let i ← toIndex iv
      match pyStrIndex s i with
      | some c => st.set_value target (.string [c])
      | none => .error .indexError
    | _ => .error .typeError
  | _ => .error .typeError

/-- SETCHAR via `State.set_char` — modelled from the spec: mutate a
single character position of the target string in place; a fault if
out of range or if the replacement string is empty. -/
def set_charCmd : Command := fun st ops =>
  match ops with
  | [target, index, src] => do
    let tv ← st.get_value target
    let iv ← st.get_value index
    let sv ← st.get_value src
    match tv, iv, sv with
    | .string s, .int i, .string (c :: _) =>
      if 0 ≤ i ∧ i < (s.length : Int) then
        st.set_value target (.string (s.set i.toNat c))
      else .error .indexError
    | _, _, _ => .error .typeError
  | _ => .error .typeError

/-- INT2FLOAT as written in instruction.py: the coerced value is
stored back into the second operand (`set_value(op1, ...)`), and the
first operand is never written. -/
def int2floatCmd : Command := fun st ops =>
  match ops with
  | [_op0, op1] => do
    let v ← st.get_value op1
    let q ← pyFloat v
    st.set_value op1 (.float q)
  | _ => .error .typeError

/-- FLOAT2INT as written in instruction.py: as for INT2FLOAT, the
result is stored back into the second operand. -/
def float2intCmd : Command := fun st ops =>
  match ops with
  | [_op0, op1] => do
    let v ← st.get_value op1
    let n ← pyInt v
    st.set_value op1 (.int n)
  | _ => .error .typeError

/-- FLOAT2R2EINT: `math.ceil(get_value(op1) / 2.) * 2` stored into the
first operand. -/
def float2r2eintCmd : Command := fun st ops =>
  match ops with
  | [op0, op1] => do
    let v ← st.get_value op1
    match v.asNum with
    | some q => st.set_value op0 (.int (float2r2eCore q))
    | none => .error .typeError
  | _ => .error .typeError

/-- FLOAT2R2OINT: host `round` of the resolved value stored into the
first operand. -/
def float2r2ointCmd : Command := fun st ops =>
  match ops with
  | [op0, op1] => do
    let v ← st.get_value op1
    match v.asNum with
    | some q => st.set_value op0 (.int (pyRound q))
    | none => .error .typeError
  | _ => .error .typeError

/-- Argument coercion of the host `chr`: an integral value is
required. -/
def chrArg : Value → Except Fault Int
  | .int n => .ok n
  | .bool b => .ok (if b then 1 else 0)
  | _ => .error .typeError

/-- Host `chr`: a valid code point yields a one-character string, an
invalid one is a fault.  (Code points in the surrogate range are
accepted by the host; the embedding maps them to the default
character, which no claim depends on.) -/
def pyChr (n : Int) : Except Fault (List Char) :=
  if 0 ≤ n ∧ n < 1114112 then .ok [Char.ofNat n.toNat] else .error .valueError

/-- INT2CHAR: code point of the resolved value converted to a
one-character string. -/
def int2charCmd : Command := fun st ops =>
  match ops with
  | [dst, what] => do
    let v ← st.get_value what
    let n ← chrArg v
    let cs ← pyChr n
    st.set_value dst (.string cs)
  | _ => .error .typeError

/-- STRI2INT: `ord(get_value(what)[get_value(index)])` stored into the
target. -/
def stri2intCmd : Command := fun st ops =>
  match ops with
  | [dst, what, index] => do
    let sv ← st.get_value what
    let iv ← st.get_value index
    match sv with
    | .string s => do
      let i ← toIndex iv
      match pyStrIndex s i with
      | some c => st.set_value dst (.int (c.toNat : Int))
      | none => .error .indexError
    | _ => .error .typeError
  | _ => .error .typeError

/-- INT2FLOATS: pop, coerce to float, push. -/
def int2floatsCmd : Command := fun st ops =>
  match ops with
  | [] => do
    let (v, st1) ← st.pop_stack
    let q ← pyFloat v
    .ok (st1.push_stack (.float q))
  | _ => .error .typeError

/-- FLOAT2INTS: pop, truncate to int, push. -/
def float2intsCmd : Command := fun st ops =>
  match ops with
  | [] => do
    let (v, st1) ← st.pop_stack
    let n ← pyInt v
    .ok (st1.push_stack (.int n))
  | _ => .error .typeError

/-- FLOAT2R2EINTS: pop, apply the FLOAT2R2EINT arithmetic core,
push. -/
def float2r2eintsCmd : Command := fun st ops =>
  match ops with
  | [] => do
    let (v, st1) ← st.pop_stack
    match v.asNum with
    | some q => .ok (st1.push_stack (.int (float2r2eCore q)))
    | none => .error .typeError
  | _ => .error .typeError

/-- FLOAT2R2OINTS: pop, host round, push. -/
def float2r2ointsCmd : Command := fun st ops =>
  match ops with
  | [] => do
    let (v, st1) ← st.pop_stack
    match v.asNum with
    | some q => .ok (st1.push_stack (.int (pyRound q)))
    | none => .error .typeError
  | _ => .error .typeError

/-- INT2CHARS as written passes its first operand together with the
converted character to the single-value stack push, a call the host
rejects with a type fault after the pop and the conversion have
happened (spec section 9 flags this as a latent defect). -/
def int2charsCmd : Command := fun st ops =>
  match ops with
  | [_to, _what] => do
    let (v, _st1) ← st.pop_stack
    let n ← chrArg v
    let _ ← pyChr n
    .error .typeError
  | _ => .error .typeError

/-- STRI2INTS via `State.string_to_int_stack` — modelled from the
spec: pop the index, pop the string, push the code point of the
character at that position. -/
def string_to_int_stackCmd : Command := fun st ops =>
  match ops with
  | [] => do
    let (iv, st1) ← st.pop_stack
    let (sv, st2) ← st1.pop_stack
    match sv with
    | .string s => do
      let i ← toIndex iv
      match pyStrIndex s i with
      | some c => .ok (st2.push_stack (.int (c.toNat : Int)))
      | none => .error .indexError
    | _ => .error .typeError
  | _ => .error .typeError

/-- The `_commands` dispatch table of instruction.py: a static mapping
from mnemonic to semantics function; `none` for an absent mnemonic. -/
def dispatch : String → Option Command
  | "MOVE" => some moveCmd
  | "CREATEFRAME" => some createframeCmd
  | "PUSHFRAME" => some pushframeCmd
  | "POPFRAME" => some popframeCmd
  | "DEFVAR" => some defvarCmd
  | "JUMP" => some jumpCmd
  | "CALL" => some callCmd
  | "RETURN" => some returnCmd
  | "LABEL" => some labelCmd
  | "JUMPIFEQ" => some jumpifeqCmd
  | "JUMPIFNEQ" => some jumpifneqCmd
  | "JUMPIFEQS" => some jumpifeqsCmd
  | "JUMPIFNEQS" => some jumpifneqsCmd
  | "WRITE" => some writeCmd
  | "PUSHS" => some pushsCmd
  | "POPS" => some popsCmd
  | "CLEARS" => some clearsCmd
  | "ADD" => some (_operator_command pyAdd)
  | "SUB" => some (_operator_command pySub)
  | "MUL" => some (_operator_command pyMul)
  | "DIV" => some (_operator_command pyTruediv)
  | "ADDS" => some (_operator_stack_command pyAdd)
  | "SUBS" => some (_operator_stack_command pySub)
  | "MULS" => some (_operator_stack_command pyMul)
  | "DIVS" => some (_operator_stack_command pyTruediv)
  | "LT" => some (_operator_command pyLt)
  | "GT" => some (_operator_command pyGt)
  | "EQ" => some (_operator_command pyEqHost)
  | "LTS" => some (_operator_stack_command pyLt)
  | "GTS" => some (_operator_stack_command pyGt)
  | "EQS" => some (_operator_stack_command pyEqHost)
  | "AND" => some (_operator_command pyAnd)
  | "OR" => some (_operator_command pyOr)
  | "NOT" => some notCmd
  | "ANDS" => some (_operator_stack_command pyAnd)
  | "ORS" => some (_operator_stack_command pyOr)
  | "NOTS" => some notsCmd
  | "READ" => some readCmd
  | "TYPE" => some typeCmd
  | "BREAK" => some breakCmd
  | "DPRINT" => some dprintCmd
  | "CONCAT" => some concatCmd
  | "STRLEN" => some strlenCmd
  | "GETCHAR" => some getcharCmd
  | "SETCHAR" => some set_charCmd
  | "INT2FLOAT" => some int2floatCmd
  | "FLOAT2INT" => some float2intCmd
  | "FLOAT2R2EINT" => some float2r2eintCmd
  | "FLOAT2R2OINT" => some float2r2ointCmd
  | "INT2CHAR" => some int2charCmd
  | "STRI2INT" => some stri2intCmd
  | "INT2FLOATS" => some int2floatsCmd
  | "FLOAT2INTS" => some float2intsCmd
  | "FLOAT2R2EINTS" => some float2r2eintsCmd
  | "FLOAT2R2OINTS" => some float2r2ointsCmd
  | "INT2CHARS" => some int2charsCmd
  | "STRI2INTS" => some string_to_int_stackCmd
  | _ => none

/-- The mnemonics known to the dispatch table. -/
def mnemonics : List String :=
  ["MOVE", "CREATEFRAME", "PUSHFRAME", "POPFRAME", "DEFVAR", "JUMP", "CALL",
   "RETURN", "LABEL", "JUMPIFEQ", "JUMPIFNEQ", "JUMPIFEQS", "JUMPIFNEQS",
   "WRITE", "PUSHS", "POPS", "CLEARS", "ADD", "SUB", "MUL", "DIV", "ADDS",
   "SUBS", "MULS", "DIVS", "LT", "GT", "EQ", "LTS", "GTS", "EQS", "AND",
   "OR", "NOT", "ANDS", "ORS", "NOTS", "READ", "TYPE", "BREAK", "DPRINT",
   "CONCAT", "STRLEN", "GETCHAR", "SETCHAR", "INT2FLOAT", "FLOAT2INT",
   "FLOAT2R2EINT", "FLOAT2R2OINT", "INT2CHAR", "STRI2INT", "INT2FLOATS",
   "FLOAT2INTS", "FLOAT2R2EINTS", "FLOAT2R2OINTS", "INT2CHARS", "STRI2INTS"]

/-- `InstructionPrices.INSTRUCTIONS.get(name)` — modelled from the
spec: `prices.py` is absent; it is a static mapping from the known
mnemonics to numeric prices used purely for reporting, so every known
mnemonic is priced (the concrete price, modelled as 1, has no
behavioral effect) and an absent mnemonic yields no price. -/
def instructionPrice (name : String) : Option Int :=
  if mnemonics.contains name then some 1 else none

/-- `state.instruction_price += price` of the host: adding an absent
(None) price to the integer counter is a type fault. -/
def addPrice (st : State) : Option Int → Except Fault State
  | some p => .ok { st with instruction_price := st.instruction_price + p }
  | none => .error .typeError

/-- `Instruction.run`: look up the mnemonic in the dispatch table
(falling back to `_unknown_command`), look up the price, invoke the
semantics on the state and operands, then add the price to the price
counter and bump the executed-instruction counter. -/
def Instruction.run (name : String) (ops : List Operand) (st : State) :
    Except Fault State := do
  let command := (dispatch name).getD _unknown_command
  let price := instructionPrice name
  let st1 ← command st ops
  let st2 ← addPrice st1 price
  .ok { st2 with executed_instructions := st2.executed_instructions + 1 }

theorem ok_bind {α β : Type} (x : α) (f : α → Except Fault β) :
    (Except.ok x >>= f) = f x :=
  rfl

theorem error_bind {α β : Type} (e : Fault) (f : α → Except Fault β) :
    ((Except.error e : Except Fault α) >>= f) = Except.error e :=
  rfl

theorem valueEq_symm (v w : Value) : State.valueEq v w = State.valueEq w v := by
  cases v <;> cases w <;> simp [State.valueEq, eq_comm]

/-- C1: every stack-form binary operator wrapper pops the right-hand
operand first and the left-hand operand second, computes `left OP
right`, and pushes exactly that result; ADDS, SUBS, MULS, DIVS, LTS,
GTS, EQS, ANDS and ORS are all built from that wrapper; and the
sequence `PUSHS int@10`, `PUSHS int@3`, `SUBS` run through
`Instruction.run` leaves exactly 7 on the value stack. -/
theorem C1_stack_binops_left_op_right :
    (dispatch "ADDS" = some (_operator_stack_command pyAdd) ∧
     dispatch "SUBS" = some (_operator_stack_command pySub) ∧
     dispatch "MULS" = some (_operator_stack_command pyMul) ∧
     dispatch "DIVS" = some (_operator_stack_command pyTruediv) ∧
     dispatch "LTS" = some (_operator_stack_command pyLt) ∧
     dispatch "GTS" = some (_operator_stack_command pyGt) ∧
     dispatch "EQS" = some (_operator_stack_command pyEqHost) ∧
     dispatch "ANDS" = some (_operator_stack_command pyAnd) ∧
     dispatch "ORS" = some (_operator_stack_command pyOr)) ∧
    (∀ (f : Value → Value → Except Fault Value) (st : State) (right left : Value)
        (rest : List Value),
      st.data_stack = right :: left :: rest →
      _operator_stack_command f st [] =
        (do
          let v ← f left right
          Except.ok (State.push_stack { st with data_stack := rest } v))) ∧
    ((do
        let s1 ← Instruction.run "PUSHS" [Operand.const (Value.int 10)] {}
        let s2 ← Instruction.run "PUSHS" [Operand.const (Value.int 3)] s1
        Instruction.run "SUBS" [] s2).map State.data_stack =
      Except.ok [Value.int 7]) := by
  refine ⟨⟨rfl, rfl, rfl, rfl, rfl, rfl, rfl, rfl, rfl⟩, ?_, rfl⟩
  intro f st right left rest h
  cases st
  simp only at h
  subst h
  rfl

/-- Witness for C1 at a concrete input: with 3 on top of 10, SUBS
computes 10 - 3 and pushes 7. -/
theorem C1_witness :
    _operator_stack_command pySub { data_stack := [Value.int 3, Value.int 10] } [] =
      Except.ok (State.push_stack { data_stack := [] } (Value.int 7)) := by
  have h := C1_stack_binops_left_op_right.2.1 pySub
    { data_stack := [Value.int 3, Value.int 10] } (Value.int 3) (Value.int 10) [] rfl
  rw [h]
  rfl

/-- C2: the claim that the accounting step does not fault for an
absent mnemonic is contradicted by the code: the mnemonic is indeed
absent from the dispatch table and its fallback semantics is a logged
no-op, but the price lookup yields no price and adding it to the price
counter is a type fault that aborts `Instruction.run` for every state
and operand list. -/
theorem C2_unknown_mnemonic_accounting_faults :
    dispatch "FROBNICATE" = none ∧
    (∀ (st : State) (ops : List Operand),
      _unknown_command st ops =
        Except.ok { st with stderr := st.stderr ++ ["Unknown command.".toList] }) ∧
    (∀ (st : State) (ops : List Operand),
      Instruction.run "FROBNICATE" ops st = Except.error Fault.typeError) :=
  ⟨rfl, fun _ _ => rfl, fun _ _ => rfl⟩

/-- C3: on a state whose value stack holds at least two values,
JUMPIFEQS and JUMPIFNEQS pop two values and behave exactly as
`jump_if` applied to the label with the second-popped value as the
left operand and the first-popped value as the right operand of the
equality comparison, jumping when the comparison is (respectively is
not) equal. -/
theorem C3_jumpifeqs_operand_order (st : State) (right left : Value) (rest : List Value)
    (op0 : Operand) (h : st.data_stack = right :: left :: rest) :
    jumpifeqsCmd st [op0] =
      State.jump_if { st with data_stack := rest } op0 left right true ∧
    jumpifneqsCmd st [op0] =
      State.jump_if { st with data_stack := rest } op0 left right false := by
  cases st
  simp only at h
  subst h
  constructor
  · show State.jump_if _ op0 right left true = State.jump_if _ op0 left right true
    unfold State.jump_if
    rw [valueEq_symm]
  · show State.jump_if _ op0 right left false = State.jump_if _ op0 left right false
    unfold State.jump_if
    rw [valueEq_symm]

/-- Witness for C3 at a concrete input: two equal integers on the
stack make JUMPIFEQS compare 1 with 1. -/
theorem C3_witness :
    jumpifeqsCmd { data_stack := [Value.int 1, Value.int 1], labels := [("L", 5)] }
        [Operand.label "L"] =
      State.jump_if { data_stack := [], labels := [("L", 5)] } (Operand.label "L")
        (Value.int 1) (Value.int 1) true :=
  (C3_jumpifeqs_operand_order
    { data_stack := [Value.int 1, Value.int 1], labels := [("L", 5)] }
    (Value.int 1) (Value.int 1) [] (Operand.label "L") rfl).1

/-- C4: DIV and DIVS are both built from host true division; a zero
right operand never yields any value (there is no infinite or NaN
result to be had), a numeric left operand with a zero right operand is
exactly the by-zero fault, and on numeric operands with a nonzero
divisor the result is the exact (non-truncating) rational quotient as
a float. -/
theorem C4_div_true_division_by_zero_faults :
    (dispatch "DIV" = some (_operator_command pyTruediv) ∧
     dispatch "DIVS" = some (_operator_stack_command pyTruediv)) ∧
    (∀ (v w : Value), w.asNum = some 0 → ∀ r : Value, pyTruediv v w ≠ Except.ok r) ∧
    (∀ (v : Value) (qa : Rat), v.asNum = some qa →
      pyTruediv v (Value.int 0) = Except.error Fault.zeroDivisionError ∧
      pyTruediv v (Value.float 0) = Except.error Fault.zeroDivisionError) ∧
    (∀ (v w : Value) (qa qb : Rat), v.asNum = some qa → w.asNum = some qb → qb ≠ 0 →
      pyTruediv v w = Except.ok (Value.float (qa / qb))) := by
  refine ⟨⟨rfl, rfl⟩, ?_, ?_, ?_⟩
  · intro v w hw r
    cases hv : v.asNum <;> simp [pyTruediv, hv, hw]
  · intro v qa hv
    constructor <;> (unfold pyTruediv; rw [hv]; norm_num [Value.asNum])
  · intro v w qa qb hv hw hqb
    simp [pyTruediv, hv, hw, hqb]

/-- Witness for C4 at concrete inputs: 10 divided by 4 is the exact
quotient 5/2, not a truncated integer, and 1 divided by integer zero
is the by-zero fault. -/
theorem C4_witness :
    pyTruediv (Value.int 10) (Value.int 4) = Except.ok (Value.float (5 / 2)) ∧
    pyTruediv (Value.int 1) (Value.int 0) = Except.error Fault.zeroDivisionError := by
  constructor
  · have h := C4_div_true_division_by_zero_faults.2.2.2 (Value.int 10) (Value.int 4)
      10 4 rfl rfl (by norm_num)
    rw [h]
    norm_num
  · exact (C4_div_true_division_by_zero_faults.2.2.1 (Value.int 1) 1 rfl).1

/-- C5: the claim that the named INT2FLOAT (resp. FLOAT2INT) stores
the coercion into its first (destination) operand and leaves the
source variable unchanged is contradicted by the code: both entries
store the coerced value back into the second (source) operand and
never write the destination.  Evaluated at a concrete failing input:
with GF@dst = nil and GF@src = int 5, INT2FLOAT GF@dst GF@src leaves
dst at nil and overwrites src with float 5; FLOAT2INT behaves
symmetrically. -/
theorem C5_int2float_writes_into_source :
    int2floatCmd { global_frame := [("dst", Value.nil), ("src", Value.int 5)] }
        [Operand.var FrameKind.GF "dst", Operand.var FrameKind.GF "src"] =
      Except.ok { global_frame := [("dst", Value.nil), ("src", Value.float 5)] } ∧
    float2intCmd { global_frame := [("dst", Value.nil), ("src", Value.float (5 / 2))] }
        [Operand.var FrameKind.GF "dst", Operand.var FrameKind.GF "src"] =
      Except.ok { global_frame := [("dst", Value.nil), ("src", Value.int 2)] } := by
  constructor
  · rfl
  · show Except.ok _ = _
    norm_num [State.set_value, Frame.setVar, pyInt, ratTrunc]
    decide

/-- C6 counterexample: for the source value 5/2 the FLOAT2R2EINT
arithmetic core yields 4, yet 2 is a multiple of two strictly nearer
to 5/2, so the stored value is not the nearest even multiple of two;
at the command level, with GF@s = float 5/2 the instruction stores
int 4 into GF@d. -/
theorem C6_counterexample :
    float2r2eCore (5 / 2 : Rat) = 4 ∧
    (2 : Int) ∣ 2 ∧
    |(5 / 2 : Rat) - ((2 : Int) : Rat)| < |(5 / 2 : Rat) - ((4 : Int) : Rat)| ∧
    float2r2eintCmd { global_frame := [("d", Value.nil), ("s", Value.float (5 / 2))] }
        [Operand.var FrameKind.GF "d", Operand.var FrameKind.GF "s"] =
      Except.ok { global_frame := [("d", Value.int 4), ("s", Value.float (5 / 2))] } := by
  have hceil : (⌈(5 / 2 : Rat) / 2⌉ : Int) = 2 := by
    rw [show ((5 / 2 : Rat) / 2) = 5 / 4 by norm_num, Int.ceil_eq_iff]
    norm_num
  have hcore : float2r2eCore (5 / 2 : Rat) = 4 := by
    show (⌈(5 / 2 : Rat) / 2⌉ * 2 : Int) = 4
    rw [hceil]
    rfl
  refine ⟨hcore, ⟨1, rfl⟩, ?_, ?_⟩
  · rw [abs_of_nonneg (by norm_num), abs_of_nonpos (by norm_num)]
    norm_num
  · show (match (Value.float (5 / 2 : Rat)).asNum with
      | some q =>
        State.set_value { global_frame := [("d", Value.nil), ("s", Value.float (5 / 2))] }
          (Operand.var FrameKind.GF "d") (Value.int (float2r2eCore q))
      | none => Except.error Fault.typeError) = _
    show State.set_value _ _ (Value.int (float2r2eCore (5 / 2 : Rat))) = _
    rw [hcore]
    rfl

/-- C6 amended: FLOAT2R2EINT stores into its destination (first)
operand the least multiple of two that is greater than or equal to the
source value — it rounds up to a multiple of two rather than to the
nearest one. -/
theorem C6_amended_rounds_up_to_multiple_of_two
    (st : State) (dst src : Operand) (v : Value) (q : Rat)
    (hget : st.get_value src = Except.ok v) (hnum : v.asNum = some q) :
    float2r2eintCmd st [dst, src] = st.set_value dst (Value.int (float2r2eCore q)) ∧
    (2 : Int) ∣ float2r2eCore q ∧
    q ≤ (float2r2eCore q : Rat) ∧
    ∀ m : Int, (2 : Int) ∣ m → q ≤ (m : Rat) → float2r2eCore q ≤ m := by
  refine ⟨?_, ⟨⌈q / 2⌉, mul_comm _ _⟩, ?_, ?_⟩
  · show (do
        let v ← st.get_value src
        match v.asNum with
        | some q => st.set_value dst (Value.int (float2r2eCore q))
        | none => Except.error Fault.typeError) = _
    rw [hget, ok_bind, hnum]
  · show q ≤ ((⌈q / 2⌉ * 2 : Int) : Rat)
    have h := Int.le_ceil (q / 2)
    push_cast
    linarith
  · intro m hdvd hle
    obtain ⟨k, hk⟩ := hdvd
    subst hk
    show ⌈q / 2⌉ * 2 ≤ 2 * k
    have h : ⌈q / 2⌉ ≤ k := by
      rw [Int.ceil_le]
      rw [div_le_iff₀ (by norm_num : (0 : Rat) < 2)]
      push_cast at hle ⊢
      linarith
    linarith

/-- Witness for C6 at a concrete input: for the source value 5/2 the
stored value is a multiple of two that is at least 5/2. -/
theorem C6_witness :
    (2 : Int) ∣ float2r2eCore (5 / 2 : Rat) ∧
    (5 / 2 : Rat) ≤ (float2r2eCore (5 / 2 : Rat) : Rat) := by
  have h := C6_amended_rounds_up_to_multiple_of_two {} (Operand.var FrameKind.GF "d")
    (Operand.const (Value.float (5 / 2))) (Value.float (5 / 2)) (5 / 2) rfl rfl
  exact ⟨h.2.1, h.2.2.1⟩

/-- C7 counterexample: with GF@s = "abc" and GF@i = -1, a negative
index, GETCHAR succeeds and stores the character "c", and STRI2INT
succeeds and stores 99, so an index below zero is not always a
fault. -/
theorem C7_counterexample :
    getcharCmd
        { global_frame :=
            [("t", Value.nil), ("s", Value.string ['a', 'b', 'c']), ("i", Value.int (-1))] }
        [Operand.var FrameKind.GF "t", Operand.var FrameKind.GF "s",
         Operand.var FrameKind.GF "i"] =
      Except.ok
        { global_frame :=
            [("t", Value.string ['c']), ("s", Value.string ['a', 'b', 'c']),
             ("i", Value.int (-1))] } ∧
    stri2intCmd
        { global_frame :=
            [("t", Value.nil), ("s", Value.string ['a', 'b', 'c']), ("i", Value.int (-1))] }
        [Operand.var FrameKind.GF "t", Operand.var FrameKind.GF "s",
         Operand.var FrameKind.GF "i"] =
      Except.ok
        { global_frame :=
            [("t", Value.int 99), ("s", Value.string ['a', 'b', 'c']),
             ("i", Value.int (-1))] } :=
  ⟨rfl, rfl⟩

/-- C7 amended: host indexing faults exactly outside
`-len s ≤ i < len s`: an index at or beyond the length, or below
minus the length, is an IndexError for both GETCHAR and STRI2INT and
no character is produced; a nonnegative in-range index addresses
position i, while an index in `[-len s, -1]` addresses position
`len s + i` instead of faulting. -/
theorem C7_amended_indexing_bounds :
    (∀ (s : List Char) (i : Int),
      ((s.length : Int) ≤ i ∨ i < -(s.length : Int) → pyStrIndex s i = none) ∧
      (0 ≤ i → i < (s.length : Int) → pyStrIndex s i = s.get? i.toNat) ∧
      (-(s.length : Int) ≤ i → i < 0 → pyStrIndex s i = s.get? (s.length + i).toNat)) ∧
    (∀ (st : State) (t sOp iOp : Operand) (s : List Char) (i : Int),
      st.get_value sOp = Except.ok (Value.string s) →
      st.get_value iOp = Except.ok (Value.int i) →
      pyStrIndex s i = none →
      getcharCmd st [t, sOp, iOp] = Except.error Fault.indexError ∧
      stri2intCmd st [t, sOp, iOp] = Except.error Fault.indexError) := by
  constructor
  · intro s i
    refine ⟨?_, ?_, ?_⟩
    · intro h
      have h1 : ¬(0 ≤ i ∧ i < (s.length : Int)) := by omega
      have h2 : ¬(-(s.length : Int) ≤ i ∧ i < 0) := by omega
      simp only [pyStrIndex, if_neg h1, if_neg h2]
    · intro h0 hlt
      simp only [pyStrIndex, if_pos (And.intro h0 hlt)]
    · intro hge hlt
      have h1 : ¬(0 ≤ i ∧ i < (s.length : Int)) := by omega
      simp only [pyStrIndex, if_neg h1, if_pos (And.intro hge hlt)]
  · intro st t sOp iOp s i hs hi hnone
    constructor
    · show (do
          let sv ← st.get_value sOp
          let iv ← st.get_value iOp
          match sv with
          | .string s => do
            let i ← toIndex iv
            match pyStrIndex s i with
            | some c => st.set_value t (.string [c])
            | none => Except.error Fault.indexError
          | _ => Except.error Fault.typeError) = _
      rw [hs, ok_bind, hi, ok_bind]
      show (do
          let i ← toIndex (Value.int i)
          match pyStrIndex s i with
          | some c => st.set_value t (.string [c])
          | none => (Except.error Fault.indexError : Except Fault State)) = _
      rw [show toIndex (Value.int i) = Except.ok i from rfl, ok_bind, hnone]
    · show (do
          let sv ← st.get_value sOp
          let iv ← st.get_value iOp
          match sv with
          | .string s => do
            let i ← toIndex iv
            match pyStrIndex s i with
            | some c => st.set_value t (.int (c.toNat : Int))
            | none => Except.error Fault.indexError
          | _ => Except.error Fault.typeError) = _
      rw [hs, ok_bind, hi, ok_bind]
      show (do
          let i ← toIndex (Value.int i)
          match pyStrIndex s i with
          | some c => st.set_value t (.int (c.toNat : Int))
          | none => (Except.error Fault.indexError : Except Fault State)) = _
      rw [show toIndex (Value.int i) = Except.ok i from rfl, ok_bind, hnone]

/-- Witness for C7 at a concrete input: index 5 into "abc" is out of
range on both sides of the command pair. -/
theorem C7_witness :
    pyStrIndex ['a', 'b', 'c'] 5 = none ∧
    getcharCmd { global_frame := [("t", Value.nil)] }
        [Operand.var FrameKind.GF "t", Operand.const (Value.string ['a', 'b', 'c']),
         Operand.const (Value.int 5)] =
      Except.error Fault.indexError := by
  have hnone := (C7_amended_indexing_bounds.1 ['a', 'b', 'c'] 5).1 (by norm_num)
  refine ⟨hnone, ?_⟩
  exact (C7_amended_indexing_bounds.2 { global_frame := [("t", Value.nil)] }
    (Operand.var FrameKind.GF "t") (Operand.const (Value.string ['a', 'b', 'c']))
    (Operand.const (Value.int 5)) ['a', 'b', 'c'] 5 rfl rfl hnone).1

/-- C8: CONCAT is a type fault whenever either resolved source value
is not a String, and on strings the underlying pairwise join is
associative: chaining it over (a, b) then c gives the same outcome as
over a then (b, c), for all values, in particular for all literal
string triples. -/
theorem C8_concat_faults_nonstring_and_assoc :
    (∀ (st : State) (t o0 o1 : Operand) (a b : Value),
      st.get_value o0 = Except.ok a → st.get_value o1 = Except.ok b →
      (a.isString = false ∨ b.isString = false) →
      concatCmd st [t, o0, o1] = Except.error Fault.typeError) ∧
    (∀ u v w : Value,
      (do
        let x ← pyJoinPair u v
        pyJoinPair x w) =
      (do
        let y ← pyJoinPair v w
        pyJoinPair u y)) := by
  constructor
  · intro st t o0 o1 a b ha hb hns
    show (do
        let a ← st.get_value o0
        let b ← st.get_value o1
        let v ← pyJoinPair a b
        st.set_value t v) = _
    rw [ha, ok_bind, hb, ok_bind]
    have hj : pyJoinPair a b = Except.error Fault.typeError := by
      rcases hns with h | h <;> cases a <;> cases b <;>
        simp_all [Value.isString, pyJoinPair]
    rw [hj, error_bind]
  · intro u v w
    cases u <;> cases v <;> cases w <;>
      simp [pyJoinPair, ok_bind, error_bind, List.append_assoc]

/-- Witness for C8 at a concrete input: concatenating an integer with
a string faults, through the command with constant operands. -/
theorem C8_witness :
    concatCmd {} [Operand.var FrameKind.GF "t", Operand.const (Value.int 1),
        Operand.const (Value.string ['x'])] =
      Except.error Fault.typeError :=
  C8_concat_faults_nonstring_and_assoc.1 {} (Operand.var FrameKind.GF "t")
    (Operand.const (Value.int 1)) (Operand.const (Value.string ['x']))
    (Value.int 1) (Value.string ['x']) rfl rfl (Or.inl rfl)

theorem uDecF_fuel_inv : ∀ (f1 : Nat) (l : List Char) (f2 : Nat),
    l.length ≤ f1 → l.length ≤ f2 → uDecF f1 l = uDecF f2 l := by
  intro f1
  induction f1 with
  | zero =>
    intro l f2 h1 h2
    cases l with
    | nil => cases f2 <;> rfl
    | cons c rest => simp at h1
  | succ g ih =>
    intro l f2 h1 h2
    cases l with
    | nil => cases f2 <;> rfl
    | cons c rest =>
      cases f2 with
      | zero => simp at h2
      | succ g2 =>
        show uDecF (g + 1) (c :: rest) = uDecF (g2 + 1) (c :: rest)
        simp only [uDecF]
        by_cases hc : c = '\\'
        · rw [if_pos hc, if_pos hc]
          cases rest with
          | nil => rfl
          | cons e r =>
            show (match uEsc e r with
              | Except.ok (chunk, k) =>
                Except.map (fun t => chunk ++ t) (uDecF g (List.drop k r))
              | Except.error err => Except.error err) =
              (match uEsc e r with
              | Except.ok (chunk, k) =>
                Except.map (fun t => chunk ++ t) (uDecF g2 (List.drop k r))
              | Except.error err => Except.error err)
            cases hu : uEsc e r with
            | error err => rfl
            | ok pr =>
              obtain ⟨chunk, k⟩ := pr
              show (uDecF g (r.drop k)).map (fun t => chunk ++ t) =
                (uDecF g2 (r.drop k)).map (fun t => chunk ++ t)
              rw [ih (r.drop k) g2
                (by rw [List.length_drop]; simp at h1; omega)
                (by rw [List.length_drop]; simp at h2; omega)]
        · rw [if_neg hc, if_neg hc,
            ih rest g2 (by simp at h1; omega) (by simp at h2; omega)]

theorem uDec_cons_plain (c : Char) (rest : List Char) (hc : ¬(c = '\\')) :
    uDec (c :: rest) = (uDec rest).map (fun t => c :: t) := by
  show uDecF (rest.length + 1) (c :: rest) = _
  simp only [uDecF, if_neg hc]
  rfl

theorem uDec_esc_nl (E : List Char) :
    uDec ('\\' :: 'n' :: E) = (uDec E).map (fun t => '\n' :: t) := by
  show uDecF (E.length + 1 + 1) ('\\' :: 'n' :: E) = _
  simp only [uDecF, if_pos rfl]
  rw [show uEsc 'n' E = Except.ok (['\n'], 0) from rfl]
  show (uDecF (E.length + 1) (E.drop 0)).map (fun t => ['\n'] ++ t) = _
  rw [show E.drop 0 = E from rfl,
    uDecF_fuel_inv (E.length + 1) E E.length (by omega) (by omega)]
  rfl

theorem uDec_clean_prefix (l E : List Char) (hnb : '\\' ∉ l) :
    uDec (l ++ '\\' :: 'n' :: E) = (uDec E).map (fun t => l ++ '\n' :: t) := by
  induction l with
  | nil => exact uDec_esc_nl E
  | cons c l ih =>
    have hc : ¬(c = '\\') := fun h => hnb (by rw [h]; exact List.mem_cons_self _ _)
    have h2 : '\\' ∉ l := fun h => hnb (List.mem_cons_of_mem _ h)
    show uDec (c :: (l ++ '\\' :: 'n' :: E)) = _
    rw [uDec_cons_plain c _ hc, ih h2]
    cases uDec E <;> rfl

theorem utf8Bytes_ascii (c : Char) (h : c.toNat < 128) : utf8Bytes c = [c] := by
  unfold utf8Bytes
  rw [if_pos h]

theorem utf8Expand_ascii (l : List Char) (h : ∀ c ∈ l, c.toNat < 128) :
    utf8Expand l = l := by
  induction l with
  | nil => rfl
  | cons c l ih =>
    show utf8Bytes c ++ utf8Expand l = c :: l
    rw [utf8Bytes_ascii c (h c (List.mem_cons_self _ _)),
      ih (fun d hd => h d (List.mem_cons_of_mem _ hd))]
    rfl

theorem utf8Expand_append (a b : List Char) :
    utf8Expand (a ++ b) = utf8Expand a ++ utf8Expand b := by
  induction a with
  | nil => rfl
  | cons c a ih =>
    show utf8Bytes c ++ utf8Expand (a ++ b) = (utf8Bytes c ++ utf8Expand a) ++ utf8Expand b
    rw [ih, List.append_assoc]

/-- C9 counterexample: the textual representation consisting of a
backslash followed by the letter x is a truncated hex escape: the
host decode raises UnicodeDecodeError, so WRITE of that string value
faults and emits nothing, against the claim that WRITE emits the
decoded text for every value. -/
theorem C9_counterexample :
    unicodeEscapeDecode ['\\', 'x'] = Except.error DecodeErr.malformed ∧
    writeCmd { global_frame := [("x", Value.string ['\\', 'x'])] }
        [Operand.var FrameKind.GF "x"] =
      Except.error Fault.valueError :=
  ⟨rfl, rfl⟩

/-- C9 amended: WRITE pipes every resolved value, whatever its type,
through the one composition decode-of-str (named-character escapes,
which need the Unicode name database, excluded): when the decode
succeeds the decoded text is emitted, and a failed decode (e.g. a
truncated hex escape) is a fault with nothing emitted.  The decoder
turns a literal backslash-n pair after any backslash-free ASCII
prefix into a real newline with errors propagating, and concrete
values of all five kinds show the emitted text, including the decimal
form of floats. -/
theorem C9_amended_write_uniform_decode :
    (∀ (st : State) (op : Operand) (v : Value),
      st.get_value op = Except.ok v →
      unicodeEscapeDecode (pyStr v) ≠ Except.error DecodeErr.nameEscape →
      writeCmd st [op] =
        (match unicodeEscapeDecode (pyStr v) with
         | .ok t => Except.ok { st with stdout := st.stdout ++ [t] }
         | .error _ => Except.error Fault.valueError)) ∧
    (∀ (l r : List Char), '\\' ∉ l → (∀ c ∈ l, c.toNat < 128) →
      unicodeEscapeDecode (l ++ '\\' :: 'n' :: r) =
        (unicodeEscapeDecode r).map (fun t => l ++ '\n' :: t)) ∧
    (unicodeEscapeDecode (pyStr (Value.float (mkRat 5 2))) = Except.ok ['2', '.', '5'] ∧
     unicodeEscapeDecode (pyStr (Value.float (mkRat 5 1))) = Except.ok ['5', '.', '0'] ∧
     unicodeEscapeDecode (pyStr (Value.int (-7))) = Except.ok ['-', '7'] ∧
     unicodeEscapeDecode (pyStr (Value.bool true)) = Except.ok "True".toList ∧
     unicodeEscapeDecode (pyStr Value.nil) = Except.ok "None".toList ∧
     unicodeEscapeDecode (pyStr (Value.string ['a', '\\', 'n', 'b'])) =
       Except.ok ['a', '\n', 'b']) := by
  refine ⟨?_, ?_, rfl, rfl, rfl, rfl, rfl, rfl⟩
  · intro st op v hget hne
    show (do
        let v ← st.get_value op
        match unicodeEscapeDecode (pyStr v) with
        | .ok t => Except.ok { st with stdout := st.stdout ++ [t] }
        | .error _ => Except.error Fault.valueError) = _
    rw [hget, ok_bind]
  · intro l r hnb hascii
    show uDec (utf8Expand (l ++ '\\' :: 'n' :: r)) = _
    rw [utf8Expand_append, utf8Expand_ascii l hascii,
      show utf8Expand ('\\' :: 'n' :: r) = '\\' :: 'n' :: utf8Expand r from rfl]
    exact uDec_clean_prefix l (utf8Expand r) hnb

/-- Witness for C9 at a concrete input: writing a string value that
contains the two characters backslash and n emits it with a real
newline in their place, through the amended uniform-decode theorem. -/
theorem C9_witness :
    writeCmd { global_frame := [("x", Value.string ['a', '\\', 'n', 'b'])] }
        [Operand.var FrameKind.GF "x"] =
      Except.ok
        { global_frame := [("x", Value.string ['a', '\\', 'n', 'b'])],
          stdout := [['a', '\n', 'b']] } := by
  have h := C9_amended_write_uniform_decode.1
    { global_frame := [("x", Value.string ['a', '\\', 'n', 'b'])] }
    (Operand.var FrameKind.GF "x") (Value.string ['a', '\\', 'n', 'b']) rfl (by decide)
  rw [h]
  rfl

/-- C10: the named STRLEN applies the host length function to its
second operand record itself rather than resolving its value, so its
outcome is independent of the execution state entirely — in
particular the result stored into the destination never depends on the
current string value of the source variable — and it factors exactly
through `pyLenOperand` applied to the operand record. -/
theorem C10_strlen_ignores_source_value :
    (∀ (st1 st2 : State) (target src : Operand),
      strlenCmd st1 [target, src] = strlenCmd st2 [target, src]) ∧
    (∀ (st : State) (target src : Operand),
      strlenCmd st [target, src] =
        (do
          let v ← pyLenOperand src
          st.set_value target v)) := by
  constructor
  · intro st1 st2 target src
    show (do
        let v ← pyLenOperand src
        st1.set_value target v) = (do
        let v ← pyLenOperand src
        st2.set_value target v)
    rw [show pyLenOperand src = Except.error Fault.typeError from rfl,
      error_bind, error_bind]
  · intro st target src
    rfl

end IFJ
